import Mathlib

/-!
Verification development for the oura-oauth-server repository
(`oura_oauth_server.py`, `download_from_render.py`).

The definitions below are a shallow embedding of the Python source.
Upstream HTTP traffic is a parameter of each operation: a response is a
status code together with an optional decoded JSON body (`none` models a
body on which `response.json()` raises a decode error), and operations
that may raise an uncaught Python exception return `Except PyError`.
-/

/-- Decoded JSON values. Objects are association lists with unique keys
(as produced by the Python json decoder); numbers are modelled as
integers, which covers every value the program manipulates. -/
inductive Json where
  | null : Json
  | bool (b : Bool) : Json
  | num (n : Int) : Json
  | str (s : String) : Json
  | arr (elems : List Json) : Json
  | obj (fields : List (String × Json)) : Json

/-- Python truthiness of a decoded JSON value (`if data:` at line 252 and
`if not data:` at line 72): empty containers, empty strings, zero, false
and None are falsy. -/
def Json.truthy : Json → Bool
  | .null => false
  | .bool b => b
  | .num n => decide (n ≠ 0)
  | .str s => decide (s ≠ "")
  | .arr xs => !xs.isEmpty
  | .obj fs => !fs.isEmpty

/-- Uncaught Python exceptions the embedded code can raise:
`json.JSONDecodeError` from `response.json()` on an undecodable body,
`AttributeError` from calling `.get` on a non-dict value, and
`sqlite3.InterfaceError` from binding an unsupported value (list/dict)
as a SQL parameter. -/
inductive PyError where
  | jsonDecodeError : PyError
  | attributeError : PyError
  | bindError : PyError
deriving DecidableEq

/-- Python `value.get(key)` on a decoded JSON value: a lookup when the
value is a dict, an AttributeError otherwise. -/
def dict_get : Json → String → Except PyError (Option Json)
  | .obj fields, k => .ok (fields.lookup k)
  | _, _ => .error .attributeError

/-- An upstream HTTP response as the program observes it: status code and
the decoded JSON body; `body = none` means `response.json()` raises. -/
structure HttpResponse where
  status : Nat
  body : Option Json

/-- A SQLite storage value, as produced by sqlite3 parameter binding. -/
inductive SQLValue where
  | null : SQLValue
  | int (i : Int) : SQLValue
  | text (s : String) : SQLValue
deriving DecidableEq

/-- sqlite3 parameter binding of a Python value coming from decoded JSON:
None binds NULL, bool and int bind INTEGER, str binds TEXT, and a list or
dict raises `InterfaceError`. -/
def toSQL : Json → Except PyError SQLValue
  | .null => .ok .null
  | .bool b => .ok (.int (if b then 1 else 0))
  | .num n => .ok (.int n)
  | .str s => .ok (.text s)
  | .arr _ => .error .bindError
  | .obj _ => .error .bindError

/-- The SQL `=` comparison used by `WHERE email=?`: NULL compares equal
to nothing (not even NULL); values of distinct storage classes are never
equal. -/
def sqlEq : SQLValue → SQLValue → Bool
  | .null, _ => false
  | _, .null => false
  | a, b => decide (a = b)

/-- One row of the `users` table created at line 47:
`CREATE TABLE IF NOT EXISTS users (id INTEGER PRIMARY KEY, email TEXT,
access_token TEXT)`. The integer primary key is the rowid and rows are
kept in rowid (= insertion) order, so it needs no explicit field; note
the schema has no refresh_token column. -/
structure UserRow where
  email : SQLValue
  access_token : SQLValue
deriving DecidableEq

/-- The `users` table: rows in rowid (insertion) order. -/
abbrev DB := List UserRow

/-- Line 147: `INSERT INTO users (email, access_token) VALUES (?, ?)` —
appends a fresh row with the next rowid. -/
def db_insert (r : UserRow) (db : DB) : DB := db ++ [r]

/-- Lines 212–213: `SELECT access_token FROM users WHERE email=?`
followed by `fetchone()` — a full table scan in rowid order returning the
first matching row, if any. -/
def db_find (db : DB) (e : SQLValue) : Option UserRow :=
  db.find? (fun r => sqlEq r.email e)

/-- The access token obtained by the lookup of lines 212–213. -/
def db_get_token (db : DB) (e : SQLValue) : Option SQLValue :=
  (db_find db e).map UserRow.access_token

/-- The number of rows of the table whose email column holds exactly the
given value. -/
def recordCount (db : DB) (e : SQLValue) : Nat :=
  (db.filter (fun r => decide (r.email = e))).length

/-- Lines 50–64, `get_oura_email(access_token)`: on a 200 response the
decoded body's `email` field with default "unknown_user"; on any other
status, "unknown_user". A 200 response whose body does not decode makes
`response.json()` raise, and that exception propagates to the caller. -/
def get_oura_email (resp : HttpResponse) : Except PyError Json :=
  if resp.status = 200 then
    match resp.body with
    | none => .error .jsonDecodeError
    | some j =>
      match dict_get j "email" with
      | .error e => .error e
      | .ok v => .ok (v.getD (.str "unknown_user"))
  else .ok (.str "unknown_user")

/-- Outcome of the `/callback` route, lines 105–161. -/
inductive CallbackResult where
  | noCode : CallbackResult
  | exchangeError (status : Nat) (body : Option Json) : CallbackResult
  | pyError (e : PyError) : CallbackResult
  | success (email : Json) : CallbackResult

/-- Lines 105–161, `get_token()` (the `/callback` route). Parameters:
the current table, the `code` query argument, the token-exchange response
and the personal-info response used by `get_oura_email`. On a 200
exchange the code reads `access_token` via `.get` (no presence check),
resolves the email, and INSERTs one row `(email, access_token)`; a
missing token is stored as NULL. -/
def get_token (db : DB) (auth_code : Option String)
    (tokenResp userResp : HttpResponse) : CallbackResult × DB :=
  match auth_code with
  | none => (.noCode, db)
  | some code =>
    if code = "" then (.noCode, db)
    else if tokenResp.status = 200 then
      match tokenResp.body with
      | none => (.pyError .jsonDecodeError, db)
      | some td =>
        match dict_get td "access_token" with
        | .error e => (.pyError e, db)
        | .ok tok =>
          match get_oura_email userResp with
          | .error e => (.pyError e, db)
          | .ok ej =>
            match toSQL ej, toSQL (tok.getD .null) with
            | .ok se, .ok st => (.success ej, db_insert ⟨se, st⟩ db)
            | .error e, _ => (.pyError e, db)
            | .ok _, .error e => (.pyError e, db)
    else (.exchangeError tokenResp.status tokenResp.body, db)

/-- A proleptic-Gregorian calendar date, as held by a Python
`datetime.date` (whose year always lies in 1..9999). -/
structure Date where
  year : Nat
  month : Nat
  day : Nat
deriving DecidableEq

/-- The field ranges every Python `datetime.date` satisfies. -/
def Date.valid (d : Date) : Prop :=
  1 ≤ d.year ∧ d.year ≤ 9999 ∧ 1 ≤ d.month ∧ d.month ≤ 12 ∧ 1 ≤ d.day ∧ d.day ≤ 31

instance (d : Date) : Decidable d.valid := by
  unfold Date.valid; infer_instance

/-- The decimal digit character for n (n < 10). -/
def digitChar (n : Nat) : Char := Char.ofNat (48 + n)

/-- Two-digit zero-padded decimal rendering (strftime %m, %d). -/
def pad2 (n : Nat) : List Char := [digitChar (n / 10 % 10), digitChar (n % 10)]

/-- Four-digit zero-padded decimal rendering (strftime %Y on a Python
date, whose year is at most 9999). -/
def pad4 (n : Nat) : List Char :=
  [digitChar (n / 1000 % 10), digitChar (n / 100 % 10),
   digitChar (n / 10 % 10), digitChar (n % 10)]

/-- `strftime(date, "%Y-%m-%d")` for a Python date. -/
def renderDate (d : Date) : String :=
  String.mk (pad4 d.year ++ '-' :: pad2 d.month ++ '-' :: pad2 d.day)

/-- The civil date with the given Python ordinal (`date.fromordinal`:
ordinal 1 is 0001-01-01, each later day adds one), computed by the
standard era/year-of-era arithmetic of the Gregorian calendar. -/
def civilFromOrdinal (o : Nat) : Date :=
  let z := o + 305
  let era := z / 146097
  let doe := z % 146097
  let yoe := (doe - doe / 1460 + doe / 36524 - doe / 146096) / 365
  let y := yoe + era * 400
  let doy := doe - (365 * yoe + yoe / 4 - yoe / 100)
  let mp := (5 * doy + 2) / 153
  let d := doy - (153 * mp + 2) / 5 + 1
  let m := if mp < 10 then mp + 3 else mp - 9
  ⟨if m ≤ 2 then y + 1 else y, m, d⟩

/-- The Python ordinal (`date.toordinal`) of a civil date. -/
def toOrdinal (y m d : Nat) : Nat :=
  let y2 := if m ≤ 2 then y - 1 else y
  let era := y2 / 400
  let yoe := y2 % 400
  let mp := if 2 < m then m - 3 else m + 9
  let doy := (153 * mp + 2) / 5 + d - 1
  let doe := yoe * 365 + yoe / 4 - yoe / 100 + doy
  era * 146097 + doe - 305

/-- `datetime.strftime("%Y-%m-%d")` of the date with the given ordinal. -/
def strfdate (o : Nat) : String := renderDate (civilFromOrdinal o)

/-- Lines 231–234 of the `/fetch_oura_data/<email>` route: the query
parameters sent with every category GET, computed at call time from the
current date (as its ordinal): `end_date = datetime.today().date()`,
`start_date = end_date - timedelta(days=365)`, both rendered with
`strftime("%Y-%m-%d")`. -/
def fetch_params (todayOrd : Nat) : List (String × String) :=
  [("start_date", strfdate (todayOrd - 365)), ("end_date", strfdate todayOrd)]

/-- Lines 222–229: the static category-to-endpoint mapping, in
declaration order (Python dicts iterate in insertion order). -/
def endpoints : List (String × String) :=
  [("email", "https://api.ouraring.com/v2/usercollection/email"),
   ("personal_info", "https://api.ouraring.com/v2/usercollection/personal_info"),
   ("daily_data", "https://api.ouraring.com/v2/usercollection/daily"),
   ("heart_rate_data", "https://api.ouraring.com/v2/usercollection/heartrate"),
   ("workout_data", "https://api.ouraring.com/v2/usercollection/workout"),
   ("tags_data", "https://api.ouraring.com/v2/usercollection/tags")]

/-- What the network did for one category GET: either `requests.get`
itself raised (connection error, timeout), or it produced a response. -/
inductive UpstreamOutcome where
  | transportError : UpstreamOutcome
  | response (resp : HttpResponse) : UpstreamOutcome

/-- Line 250: `data = response.json().get("data", [])` — the `data`
field of a decoded dict body, defaulting to the empty list when the key
is absent; an AttributeError when the body is not a dict. -/
def extracted_data : Json → Except PyError Json
  | .obj fields => .ok ((fields.lookup "data").getD (.arr []))
  | _ => .error .attributeError

/-- What the loop body of lines 245–261 does with one category. -/
inductive EndpointStep where
  | skipped : EndpointStep
  | saved (data : Json) : EndpointStep
  | noData : EndpointStep
  | pyError (e : PyError) : EndpointStep

/-- True exactly for a `saved` step. -/
def EndpointStep.isSaved : EndpointStep → Bool
  | .saved _ => true
  | _ => false

/-- True exactly for a `pyError` step. -/
def EndpointStep.isPyError : EndpointStep → Bool
  | .pyError _ => true
  | _ => false

/-- Lines 245–261, one iteration: a raised `RequestException` — from the
transport, from `raise_for_status()` on a status of 400 or more, or from
`response.json()` on an undecodable body — is caught and the category is
skipped (`continue`); otherwise the `data` field is extracted, a truthy
value is saved and a falsy one skipped with a warning. An AttributeError
from `.get` on a non-dict body is not a RequestException and escapes. -/
def process_endpoint (out : UpstreamOutcome) : EndpointStep :=
  match out with
  | .transportError => .skipped
  | .response resp =>
    if 400 ≤ resp.status then .skipped
    else
      match resp.body with
      | none => .skipped
      | some j =>
        match extracted_data j with
        | .error e => .pyError e
        | .ok data => if data.truthy then .saved data else .noData

/-- The second loop of lines 245–261 over the endpoint mapping, run
against a network modelled as a function from category key to outcome.
Returns the keys actually fetched, in order, and either the accumulated
`saved_files` names (line 255 appends the key with a `.json` suffix) or
the first uncaught exception, which aborts the remaining iterations. -/
def run_endpoints : List (String × String) → (String → UpstreamOutcome) →
    List String × Except PyError (List String)
  | [], _ => ([], .ok [])
  | (k, _) :: rest, f =>
    match process_endpoint (f k) with
    | .pyError e => ([k], .error e)
    | .saved _ =>
      let r := run_endpoints rest f
      (k :: r.1, r.2.map (fun xs => (k ++ ".json") :: xs))
    | _ =>
      let r := run_endpoints rest f
      (k :: r.1, r.2)

/-- A value returned to the HTTP client: status code and JSON body. -/
structure RouteResponse where
  status : Nat
  body : Json

/-- Lines 207–266, the `/fetch_oura_data/<email>` route: look the email
up in the users table (the route parameter binds as TEXT); absence is a
404 `User not found`; otherwise every category is processed in mapping
order and the route reports the saved file names. An uncaught exception
in the loop escapes the route (`Except.error`). -/
def fetch_oura_data (db : DB) (email : String) (f : String → UpstreamOutcome) :
    Except PyError RouteResponse :=
  match db_get_token db (.text email) with
  | none => .ok ⟨404, .obj [("error", .str "User not found")]⟩
  | some _tok =>
    match (run_endpoints endpoints f).2 with
    | .error e => .error e
    | .ok files =>
      .ok ⟨200, .obj [("status", .str "Data retrieval and saving complete"),
                      ("saved_files", .arr (files.map .str))]⟩

/-- Lines 76–80 and 274–276: the path under which `save_json` writes a
category's data on a given date and from which `/download` serves it —
both sites build `BASE_FOLDER/email/{data_type}_{YYYY-MM-DD}.json` with
the current date (the embedding takes the normalized path pieces). -/
def dataFilePath (base email dtype : String) (d : Date) : String :=
  base ++ "/" ++ email ++ "/" ++ dtype ++ "_" ++ renderDate d ++ ".json"

/-- A response of the `/download` route: either the file at a path is
sent, or a JSON body with a status code. -/
inductive DownloadResult where
  | fileResp (path : String) : DownloadResult
  | jsonResp (status : Nat) (body : Json) : DownloadResult

/-- Lines 269–281, the `/download/<email>/<data_type>` route. The users
table and the request's Authorization header are in scope for the handler
(module global and Flask request object) but the body reads neither: it
builds the current-dated file path and serves the file when it exists,
a 404 JSON error otherwise. -/
def download_json (_db : DB) (fs : String → Bool) (base : String) (today : Date)
    (_auth : Option String) (email dtype : String) : DownloadResult :=
  let path := dataFilePath base email dtype today
  if fs path then .fileResp path
  else .jsonResp 404 (.obj [("error", .str "File not found")])

example : get_token [] (some "c")
    ⟨200, some (.obj [("access_token", .str "a1"), ("refresh_token", .str "r1")])⟩
    ⟨200, some (.obj [("email", .str "u@x")])⟩
    = (.success (.str "u@x"), [⟨.text "u@x", .text "a1"⟩]) := rfl

example : get_oura_email ⟨500, none⟩ = .ok (.str "unknown_user") := rfl
example : get_oura_email ⟨200, none⟩ = .error .jsonDecodeError := rfl

example : toOrdinal 1 1 1 = 1 := by decide
example : toOrdinal 1970 1 1 = 719163 := by decide
example : civilFromOrdinal 719163 = ⟨1970, 1, 1⟩ := by decide
example : strfdate (toOrdinal 2026 10 12) = "2026-10-12" := by decide
example : strfdate (toOrdinal 2026 10 12 - 365) = "2025-10-12" := by decide
example : civilFromOrdinal (toOrdinal 2024 2 29) = ⟨2024, 2, 29⟩ := by decide
example : civilFromOrdinal (toOrdinal 2023 3 1) = ⟨2023, 3, 1⟩ := by decide
example : civilFromOrdinal (toOrdinal 9999 12 31) = ⟨9999, 12, 31⟩ := by decide
example : civilFromOrdinal (toOrdinal 2000 12 31) = ⟨2000, 12, 31⟩ := by decide

/-! ## Helper lemmas (shared) -/

/-- Appending one row changes the per-email row count by one exactly when
the new row carries that email. -/
theorem recordCount_append (db : DB) (r : UserRow) (e : SQLValue) :
    recordCount (db ++ [r]) e
      = recordCount db e + (if r.email = e then 1 else 0) := by
  by_cases h : r.email = e <;>
    simp [recordCount, List.filter_append, List.filter_cons, h]

/-! ## C1 -/

/-- C1: the claim that any sequence of upserts for one identity leaves
exactly one record is false at a concrete input: two successful callbacks
for the same identity with identical token values leave two records. -/
theorem c1_counterexample :
    recordCount
      (get_token
        (get_token [] (some "c1")
          ⟨200, some (.obj [("access_token", .str "a1")])⟩
          ⟨200, some (.obj [("email", .str "u@x")])⟩).2
        (some "c2")
        ⟨200, some (.obj [("access_token", .str "a1")])⟩
        ⟨200, some (.obj [("email", .str "u@x")])⟩).2
      (.text "u@x") = 2 := rfl

/-- C1 (amended): every successful callback appends a fresh row for its
identity, present or not, so the per-identity record count always grows
by one — n replayed upserts leave n records, not one. -/
theorem c1_insert_appends (db : DB) (auth_code : Option String)
    (tokenResp userResp : HttpResponse) (ej : Json) (db' : DB)
    (h : get_token db auth_code tokenResp userResp = (.success ej, db')) :
    ∃ se st, toSQL ej = .ok se ∧ db' = db_insert ⟨se, st⟩ db ∧
      recordCount db' se = recordCount db se + 1 := by
  cases auth_code with
  | none => simp [get_token] at h
  | some code =>
    by_cases hc : code = ""
    · simp [get_token, hc] at h
    · by_cases hst : tokenResp.status = 200
      · cases hb : tokenResp.body with
        | none => simp [get_token, hc, hst, hb] at h
        | some td =>
          cases hdg : dict_get td "access_token" with
          | error e => simp [get_token, hc, hst, hb, hdg] at h
          | ok tok =>
            cases hge : get_oura_email userResp with
            | error e => simp [get_token, hc, hst, hb, hdg, hge] at h
            | ok ej0 =>
              cases hts : toSQL ej0 with
              | error e => simp [get_token, hc, hst, hb, hdg, hge, hts] at h
              | ok se0 =>
                cases hts2 : toSQL (tok.getD .null) with
                | error e =>
                  simp [get_token, hc, hst, hb, hdg, hge, hts, hts2] at h
                | ok st0 =>
                  simp [get_token, hc, hst, hb, hdg, hge, hts, hts2] at h
                  obtain ⟨hej, hdb⟩ := h
                  subst hej
                  refine ⟨se0, st0, hts, hdb.symm, ?_⟩
                  rw [← hdb, db_insert, recordCount_append]
                  simp
      · simp [get_token, hc, hst] at h

/-- C1 witness: the amended theorem applied to a concrete callback. -/
theorem c1_insert_appends_witness :
    ∃ se st, toSQL (Json.str "u@x") = .ok se ∧
      ([⟨.text "u@x", .text "a1"⟩] : DB) = db_insert ⟨se, st⟩ [] ∧
      recordCount [⟨.text "u@x", .text "a1"⟩] se = recordCount [] se + 1 :=
  c1_insert_appends [] (some "c")
    ⟨200, some (.obj [("access_token", .str "a1")])⟩
    ⟨200, some (.obj [("email", .str "u@x")])⟩
    (.str "u@x") [⟨.text "u@x", .text "a1"⟩] rfl

/-! ## C2 -/

/-- C2: the claim that lookup returns the most recently written token is
false at a concrete input: after two successful callbacks for the same
identity writing tokOLD then tokNEW, the lookup of the fetch route
returns tokOLD (the first matching row in rowid order), not tokNEW. -/
theorem c2_counterexample :
    db_get_token
      (get_token
        (get_token [] (some "c1")
          ⟨200, some (.obj [("access_token", .str "tokOLD")])⟩
          ⟨200, some (.obj [("email", .str "u@x")])⟩).2
        (some "c2")
        ⟨200, some (.obj [("access_token", .str "tokNEW")])⟩
        ⟨200, some (.obj [("email", .str "u@x")])⟩).2
      (.text "u@x") = some (.text "tokOLD") ∧
    SQLValue.text "tokOLD" ≠ SQLValue.text "tokNEW" := by
  exact ⟨rfl, by decide⟩

/-- C2 (amended): lookup returns the token written by the earliest
matching record: once any row matching the identity exists, inserting a
further row for it leaves the lookup result unchanged (the first write
wins, later writes are shadowed). -/
theorem c2_first_write_wins (db : DB) (r r' : UserRow)
    (hmem : r' ∈ db) (hr : sqlEq r'.email r.email = true) :
    db_get_token (db_insert r db) r.email = db_get_token db r.email := by
  unfold db_get_token db_find db_insert
  rw [List.find?_append]
  have hs : (db.find? (fun x => sqlEq x.email r.email)).isSome :=
    List.find?_isSome.mpr ⟨r', hmem, hr⟩
  cases hfind : db.find? (fun x => sqlEq x.email r.email) with
  | none => rw [hfind] at hs; simp at hs
  | some x => simp [hfind]

/-- C2 witness: the amended theorem applied to a concrete table. -/
theorem c2_first_write_wins_witness :
    db_get_token (db_insert ⟨.text "u@x", .text "t2"⟩
      [⟨.text "u@x", .text "t1"⟩]) (.text "u@x") = some (.text "t1") :=
  c2_first_write_wins [⟨.text "u@x", .text "t1"⟩]
    ⟨.text "u@x", .text "t2"⟩ ⟨.text "u@x", .text "t1"⟩
    (by decide) (by decide)

/-! ## C3 -/

/-- C3: a successful callback whose exchange response carries both an
access_token and a refresh_token persists a row holding only the email
and the access token: the users schema has no refresh_token column and
get_token never reads the refresh_token field, so the value r1 appears
nowhere in the stored state. -/
theorem c3_refresh_token_dropped :
    get_token [] (some "c")
      ⟨200, some (.obj [("access_token", .str "a1"), ("refresh_token", .str "r1")])⟩
      ⟨200, some (.obj [("email", .str "u@x")])⟩
      = (.success (.str "u@x"), [⟨.text "u@x", .text "a1"⟩]) ∧
    (∀ r ∈ ([⟨.text "u@x", .text "a1"⟩] : DB),
      r.email ≠ .text "r1" ∧ r.access_token ≠ .text "r1") :=
  ⟨rfl, by decide⟩

/-! ## C4 -/

/-- C4: the claim that resolve_identity never fails its caller is false
at a concrete input: a 200 response with an undecodable body makes
response.json() raise, and the exception propagates instead of yielding
the sentinel. -/
theorem c4_counterexample :
    get_oura_email ⟨200, none⟩ = .error .jsonDecodeError := rfl

/-- C4 (amended): for every response with a non-200 status — in
particular every non-2xx status — get_oura_email returns the sentinel
"unknown_user" without touching the body; only a 200 response with an
undecodable body raises to the caller. -/
theorem c4_non200_unknown_user (resp : HttpResponse) (h : resp.status ≠ 200) :
    get_oura_email resp = .ok (.str "unknown_user") := by
  unfold get_oura_email
  simp [h]

/-- C4 witness: the amended theorem at a concrete 502 response. -/
theorem c4_non200_unknown_user_witness :
    get_oura_email ⟨502, none⟩ = .ok (.str "unknown_user") :=
  c4_non200_unknown_user ⟨502, none⟩ (by decide)

/-! ## C5 -/

/-- C5: the claim that a 200 exchange response lacking access_token makes
the callback fail with TokenMissing is false at a concrete input: the
callback proceeds to identity resolution and persistence, storing a NULL
token and reporting success (no TokenMissing outcome exists at all). -/
theorem c5_counterexample :
    get_token [] (some "c") ⟨200, some (.obj [])⟩ ⟨500, none⟩
      = (.success (.str "unknown_user"), [⟨.text "unknown_user", .null⟩]) := rfl

/-- C5 (amended): when the exchange returns 200 with a decoded body
lacking access_token, get_token performs no presence check: it resolves
the identity and persists a row whose access_token column is NULL,
returning success. -/
theorem c5_missing_token_proceeds (db : DB) (code : String) (td : Json)
    (userResp : HttpResponse) (ej : Json) (se : SQLValue)
    (hc : code ≠ "") (htd : dict_get td "access_token" = .ok none)
    (he : get_oura_email userResp = .ok ej) (hs : toSQL ej = .ok se) :
    get_token db (some code) ⟨200, some td⟩ userResp
      = (.success ej, db_insert ⟨se, .null⟩ db) := by
  unfold get_token
  simp [hc, htd, he]
  rw [hs]
  rfl

/-- C5 witness: the amended theorem at a concrete callback. -/
theorem c5_missing_token_proceeds_witness :
    get_token [] (some "c") ⟨200, some (.obj [])⟩ ⟨404, none⟩
      = (.success (.str "unknown_user"), db_insert ⟨.text "unknown_user", .null⟩ []) :=
  c5_missing_token_proceeds [] "c" (.obj []) ⟨404, none⟩
    (.str "unknown_user") (.text "unknown_user")
    (by decide) rfl rfl rfl

/-! ## C6 -/

/-- C6: the claim that a 2xx body lacking a `data` field is itself
treated as the returned sequence is false at a concrete input: a 200
response whose decoded dict body has no `data` key yields the empty
sequence (and the category is then skipped as having no data), not the
raw body, which is a distinct, truthy value. -/
theorem c6_counterexample :
    process_endpoint (.response ⟨200, some (.obj [("day", .str "x")])⟩) = .noData ∧
    extracted_data (.obj [("day", .str "x")]) = .ok (.arr []) ∧
    Json.arr [] ≠ Json.obj [("day", .str "x")] :=
  ⟨rfl, rfl, fun hcontra => Json.noConfusion hcontra⟩

/-- C6 (amended): for a sub-400 response with a decoded dict body, the
sequence used is the value of the `data` field when that key is present
(saved when truthy, skipped otherwise); when the key is absent the
default is the empty sequence, so the category is skipped as having no
data — the raw body is never used as the sequence. -/
theorem c6_data_unwrap (st : Nat) (fields : List (String × Json))
    (h : st < 400) :
    (∀ v, fields.lookup "data" = some v →
      process_endpoint (.response ⟨st, some (.obj fields)⟩)
        = (if v.truthy then .saved v else .noData)) ∧
    (fields.lookup "data" = none →
      process_endpoint (.response ⟨st, some (.obj fields)⟩) = .noData) := by
  constructor
  · intro v hv
    unfold process_endpoint extracted_data
    simp [Nat.not_le.mpr h, hv]
  · intro hv
    unfold process_endpoint extracted_data
    simp [Nat.not_le.mpr h, hv, Json.truthy]

/-- C6 witness: the amended theorem at a concrete body carrying a
nonempty `data` field. -/
theorem c6_data_unwrap_witness :
    process_endpoint (.response ⟨200, some (.obj [("data", .arr [.num 1])])⟩)
      = .saved (.arr [.num 1]) :=
  (c6_data_unwrap 200 [("data", .arr [.num 1])] (by decide)).1 (.arr [.num 1]) rfl

/-! ## C7 -/

/-- C7: the claim that each failed category's result is recorded inline
in the aggregate is false at a concrete input: with the `email` category
failing upstream (HTTP 500) and every other category succeeding, every
category is still attempted, but the aggregate lists only the five saved
files and carries no record of the failed category at all. -/
theorem c7_counterexample :
    (run_endpoints endpoints (fun k =>
        if k = "email" then .response ⟨500, some (.obj [])⟩
        else .response ⟨200, some (.obj [("data", .arr [.obj [("d", .num 1)]])])⟩)).1
      = ["email", "personal_info", "daily_data", "heart_rate_data",
         "workout_data", "tags_data"] ∧
    fetch_oura_data [⟨.text "u@x", .text "tok"⟩] "u@x" (fun k =>
        if k = "email" then .response ⟨500, some (.obj [])⟩
        else .response ⟨200, some (.obj [("data", .arr [.obj [("d", .num 1)]])])⟩)
      = .ok ⟨200, .obj [("status", .str "Data retrieval and saving complete"),
          ("saved_files", .arr [.str "personal_info.json", .str "daily_data.json",
            .str "heart_rate_data.json", .str "workout_data.json",
            .str "tags_data.json"])]⟩ :=
  ⟨rfl, rfl⟩

/-- C7 (amended): as long as no category raises an uncaught exception,
every category of the mapping is fetched exactly once, in declaration
order, and a category whose fetch fails (caught RequestException) or
returns no data is skipped without aborting its siblings — the aggregate
lists exactly the saved categories, in order, with no inline record of
the failed ones. -/
theorem c7_all_attempted (eps : List (String × String))
    (f : String → UpstreamOutcome)
    (h : ∀ p ∈ eps, (process_endpoint (f p.1)).isPyError = false) :
    (run_endpoints eps f).1 = eps.map Prod.fst ∧
    (run_endpoints eps f).2
      = .ok ((eps.filter
          (fun p => (process_endpoint (f p.1)).isSaved)).map
            (fun p => p.1 ++ ".json")) := by
  induction eps with
  | nil => exact ⟨rfl, rfl⟩
  | cons p rest ih =>
    obtain ⟨k, u⟩ := p
    have hk := h (k, u) (List.mem_cons_self _ _)
    have hrest := ih (fun q hq => h q (List.mem_cons_of_mem _ hq))
    cases hstep : process_endpoint (f k) with
    | pyError e => rw [hstep] at hk; simp [EndpointStep.isPyError] at hk
    | saved d =>
      constructor
      · simp [run_endpoints, hstep, hrest.1]
      · simp [run_endpoints, hstep, hrest.2, List.filter_cons,
          EndpointStep.isSaved, Except.map]
    | skipped =>
      constructor
      · simp [run_endpoints, hstep, hrest.1]
      · simp [run_endpoints, hstep, hrest.2, List.filter_cons,
          EndpointStep.isSaved]
    | noData =>
      constructor
      · simp [run_endpoints, hstep, hrest.1]
      · simp [run_endpoints, hstep, hrest.2, List.filter_cons,
          EndpointStep.isSaved]

/-- C7 witness: the amended theorem at the real endpoint mapping with
one failing category. -/
theorem c7_all_attempted_witness :
    (run_endpoints endpoints (fun k =>
        if k = "daily_data" then .transportError
        else .response ⟨200, some (.obj [("data", .arr [.num 7])])⟩)).1
      = ["email", "personal_info", "daily_data", "heart_rate_data",
         "workout_data", "tags_data"] ∧
    (run_endpoints endpoints (fun k =>
        if k = "daily_data" then .transportError
        else .response ⟨200, some (.obj [("data", .arr [.num 7])])⟩)).2
      = .ok ["email.json", "personal_info.json", "heart_rate_data.json",
             "workout_data.json", "tags_data.json"] :=
  c7_all_attempted endpoints
    (fun k =>
      if k = "daily_data" then .transportError
      else .response ⟨200, some (.obj [("data", .arr [.num 7])])⟩)
    (by decide)

/-! ## C8 -/

/-- C8: whenever the fetch route runs (it never accepts a caller-supplied
range, so the default applies on every call), the query parameters carry
an end date rendered from the current date and a start date rendered from
the ordinal exactly 365 days earlier, both as 10-character YYYY-MM-DD
strings, and both endpoints are sent (the upstream range is inclusive). -/
theorem c8_date_range (t : Nat) (h : 365 ≤ t) :
    fetch_params t
      = [("start_date", strfdate (t - 365)), ("end_date", strfdate t)] ∧
    (t - 365) + 365 = t ∧
    (strfdate (t - 365)).length = 10 ∧ (strfdate t).length = 10 :=
  ⟨rfl, by omega, rfl, rfl⟩

/-- C8 witness: the theorem at the ordinal of 2026-10-12. -/
theorem c8_date_range_witness :
    fetch_params (toOrdinal 2026 10 12)
      = [("start_date", "2025-10-12"), ("end_date", "2026-10-12")] ∧
    (toOrdinal 2026 10 12 - 365) + 365 = toOrdinal 2026 10 12 := by
  have h := c8_date_range (toOrdinal 2026 10 12) (by decide)
  exact ⟨h.1.trans (by decide), h.2.1⟩

/-! ## C9 -/

/-- C9: the download operation is independent of the presented
credentials and of the token store: for any fixed filesystem, base folder
and current date, two runs that differ only in the users table and in the
Authorization header produce identical results — the handler consults
neither before serving the stored file. -/
theorem c9_auth_independent (db1 db2 : DB) (fs : String → Bool)
    (base : String) (today : Date) (auth1 auth2 : Option String)
    (email dtype : String) :
    download_json db1 fs base today auth1 email dtype
      = download_json db2 fs base today auth2 email dtype := rfl

/-! ## C10 helper lemmas -/

/-- The character data of a rendered date. -/
theorem renderDate_data (d : Date) :
    (renderDate d).data
      = pad4 d.year ++ '-' :: pad2 d.month ++ '-' :: pad2 d.day := rfl

/-- A rendered date always has exactly 10 characters. -/
theorem renderDate_data_length (d : Date) : (renderDate d).data.length = 10 := by
  simp [renderDate_data, pad4, pad2]

/-- Distinct decimal digits render to distinct characters. -/
theorem digitChar_inj :
    ∀ a, a < 10 → ∀ b, b < 10 → digitChar a = digitChar b → a = b := by decide

/-- On calendar dates the YYYY-MM-DD rendering is injective. -/
theorem renderDate_inj (d1 d2 : Date) (h1 : d1.valid) (h2 : d2.valid)
    (h : renderDate d1 = renderDate d2) : d1 = d2 := by
  have hd := congrArg String.data h
  rw [renderDate_data, renderDate_data] at hd
  simp [pad4, pad2] at hd
  obtain ⟨q1, q2, q3, q4, q5, q6, q7, q8⟩ := hd
  obtain ⟨hy1a, hy1b, hm1a, hm1b, hda1, hdb1⟩ := h1
  obtain ⟨hy2a, hy2b, hm2a, hm2b, hda2, hdb2⟩ := h2
  have l10 : (0 : Nat) < 10 := by decide
  have r1 := digitChar_inj _ (Nat.mod_lt _ l10) _ (Nat.mod_lt _ l10) q1
  have r2 := digitChar_inj _ (Nat.mod_lt _ l10) _ (Nat.mod_lt _ l10) q2
  have r3 := digitChar_inj _ (Nat.mod_lt _ l10) _ (Nat.mod_lt _ l10) q3
  have r4 := digitChar_inj _ (Nat.mod_lt _ l10) _ (Nat.mod_lt _ l10) q4
  have r5 := digitChar_inj _ (Nat.mod_lt _ l10) _ (Nat.mod_lt _ l10) q5
  have r6 := digitChar_inj _ (Nat.mod_lt _ l10) _ (Nat.mod_lt _ l10) q6
  have r7 := digitChar_inj _ (Nat.mod_lt _ l10) _ (Nat.mod_lt _ l10) q7
  have r8 := digitChar_inj _ (Nat.mod_lt _ l10) _ (Nat.mod_lt _ l10) q8
  have hy : d1.year = d2.year := by omega
  have hm : d1.month = d2.month := by omega
  have hdd : d1.day = d2.day := by omega
  cases d1
  cases d2
  simp_all

/-- Two data-file paths can only coincide when their embedded calendar
dates coincide: the date occupies a fixed-length suffix slot just before
the fixed extension, whatever the base, email and data-type strings
around it are. -/
theorem dataFilePath_date_inj (b1 e1 t1 b2 e2 t2 : String) (d1 d2 : Date)
    (h1 : d1.valid) (h2 : d2.valid)
    (h : dataFilePath b1 e1 t1 d1 = dataFilePath b2 e2 t2 d2) : d1 = d2 := by
  apply renderDate_inj d1 d2 h1 h2
  have hd := congrArg String.data h
  simp only [dataFilePath, String.data_append] at hd
  have hmid := List.append_cancel_right hd
  have hsplit := List.append_inj' hmid
    (by rw [renderDate_data_length, renderDate_data_length])
  exact congrArg String.mk hsplit.2

/-! ## C10 -/

/-- C10: the download route consults only the path embedding the current
date, so when every file in the filesystem was saved under a calendar
date other than today (in particular, any earlier one), the request
finds nothing and returns the 404 File-not-found JSON error. -/
theorem c10_only_today (db : DB) (fs : String → Bool) (base : String)
    (today : Date) (auth : Option String) (email dtype : String)
    (htoday : today.valid)
    (hfs : ∀ p, fs p = true →
      ∃ e t d, Date.valid d ∧ d ≠ today ∧ p = dataFilePath base e t d) :
    download_json db fs base today auth email dtype
      = .jsonResp 404 (.obj [("error", .str "File not found")]) := by
  cases hp : fs (dataFilePath base email dtype today) with
  | true =>
    exfalso
    obtain ⟨e, t, d, hdv, hne, hpath⟩ := hfs _ hp
    exact hne (dataFilePath_date_inj base email dtype base e t today d
      htoday hdv hpath).symm
  | false => simp [download_json, hp]

/-- C10 witness: the theorem at a filesystem holding exactly one file
saved the previous day. -/
theorem c10_only_today_witness :
    download_json []
      (fun p => p == dataFilePath "/tmp/oura_data" "u@x" "daily_data" ⟨2025, 1, 1⟩)
      "/tmp/oura_data" ⟨2025, 1, 2⟩ none "u@x" "daily_data"
      = .jsonResp 404 (.obj [("error", .str "File not found")]) :=
  c10_only_today []
    (fun p => p == dataFilePath "/tmp/oura_data" "u@x" "daily_data" ⟨2025, 1, 1⟩)
    "/tmp/oura_data" ⟨2025, 1, 2⟩ none "u@x" "daily_data" (by decide)
    (fun p hp => ⟨"u@x", "daily_data", ⟨2025, 1, 1⟩, by decide, by decide,
      eq_of_beq hp⟩)
